import Mathlib

/-!
Shallow embedding of `vtkSlicerMarkupsToModelCurveGeneration.cxx`
(SlicerMarkupsToModel module).

Conventions of the embedding:
* `double` coordinates are modelled as exact rationals `ℚ`.
* A `vtkPoints` buffer is a `List Point3`; `SetNumberOfPoints n` yields a
  list of `n` origin points (VTK zero-initialises), `SetPoint i p` is
  `List.set i p`, and `GetPoint i` is `getPt` (lookup with origin default;
  all source reads are in range).
* A `vtkPolyData` holding points plus line cells is the structure
  `PolyData`; the output argument that each source function mutates is
  passed in and the new contents are returned, so a guarded early return
  returns the argument unchanged.  A null input pointer is `none`.
* External VTK collaborators (tube filter, sphere source, the two spline
  classes, `vtkMath::SolveLeastSquares`, the C `sqrt`) are not code of
  this module; each embedded function takes them as explicit function
  arguments and theorems quantify over them.
* `vtkGenericWarningMacro` calls are modelled as values of the `Warning`
  type collected in the returned list.
* `VTK_DOUBLE_MAX` (the largest double, used by Prim's algorithm as
  infinity) is modelled as `none : Option ℚ`, ordered above every
  `some` value exactly as the finite sentinel compares in the source.
-/

namespace MarkupsToModel

/-- A 3-component point (`double[3]` in the source). -/
structure Point3 where
  x : ℚ
  y : ℚ
  z : ℚ
deriving DecidableEq, Repr

/-- VTK zero-initialised point. -/
def origin : Point3 := ⟨0, 0, 0⟩

/-- `vtkPoints::GetPoint` (all reads performed by the source are in range). -/
def getPt (l : List Point3) (i : ℕ) : Point3 := l.getD i origin

/-- A poly-data value: points plus line cells (each cell a list of point ids).
Outputs of the external tube filter / sphere source collaborators also live in
this type; the embedding never inspects them. -/
structure PolyData where
  points : List Point3
  lines : List (List ℕ)
deriving DecidableEq, Repr

/-- The observable conditions reported through `vtkGenericWarningMacro`. -/
inductive Warning where
  | nullInput
  | insufficientPoints
  | parameterCountMismatch
  | degenerateInput
  | unsupportedOrder
  | clearedStaleContents
deriving DecidableEq, Repr

/-- The line poly data built in `GetTubePolyDataFromPoints` lines 186-196:
one polyline cell visiting every point in order. -/
def buildLinePolyData (pts : List Point3) : PolyData :=
  { points := pts, lines := [List.range pts.length] }

/-- `GetTubePolyDataFromPoints` (lines 170-212).  `tubeFilter` is the external
`vtkTubeFilter` collaborator: (input line mesh, radius, number of sides) to
its output mesh (capping is always on in the source). -/
def GetTubePolyDataFromPoints (tubeFilter : PolyData → ℚ → ℕ → PolyData)
    (pointsToConnect : Option (List Point3)) (outputTube : PolyData)
    (tubeRadius : ℚ) (tubeNumberOfSides : ℕ) : PolyData × List Warning :=
  match pointsToConnect with
  | none => (outputTube, [Warning.nullInput])
  | some pts =>
    let linePolyData := buildLinePolyData pts
    if tubeRadius > 0 then
      (tubeFilter linePolyData tubeRadius tubeNumberOfSides, [])
    else
      (linePolyData, [])

/-- `GenerateSphereModel` (lines 216-238).  `sphereSource` is the external
`vtkSphereSource` collaborator: (radius, theta = phi resolution, center) to
its output mesh. -/
def GenerateSphereModel (sphereSource : ℚ → ℕ → Point3 → PolyData)
    (point : Option Point3) (outputSphere : PolyData)
    (sphereRadius : ℚ) (sphereNumberOfSides : ℕ) : PolyData × List Warning :=
  match point with
  | none => (outputSphere, [Warning.nullInput])
  | some p => (sphereSource sphereRadius sphereNumberOfSides p, [])

/-- `AllocateCurvePoints` (lines 43-56). -/
def AllocateCurvePoints (numberControlPoints tubeSegmentsBetweenControlPoints : ℕ)
    (tubeLoop : Bool) : List Point3 :=
  if tubeLoop then
    List.replicate (numberControlPoints * tubeSegmentsBetweenControlPoints + 2) origin
  else
    List.replicate ((numberControlPoints - 1) * tubeSegmentsBetweenControlPoints + 1) origin

/-- The seam point computed by `CloseLoop` (lines 64-71):
`finalPoint = point0 * 0.5 + point1 * 0.5` componentwise. -/
def closeLoopMidpoint (outputPoints : List Point3) : Point3 :=
  let point0 := getPt outputPoints 0
  let point1 := getPt outputPoints 1
  ⟨point0.x * (1/2) + point1.x * (1/2),
   point0.y * (1/2) + point1.y * (1/2),
   point0.z * (1/2) + point1.z * (1/2)⟩

/-- `CloseLoop` (lines 59-75): write the midpoint of points 0 and 1 to
index 0 and to the last index. -/
def CloseLoop (outputPoints : List Point3) : List Point3 :=
  let finalPoint := closeLoopMidpoint outputPoints
  (outputPoints.set 0 finalPoint).set (outputPoints.length - 1) finalPoint

/-- One outer iteration of the interpolation loop of
`GeneratePiecewiseLinearCurveModel` (lines 287-311): segment `s` writes the
`tubeSegmentsBetweenControlPoints` in-between points blended from control
points `s` and `s+1` (wrapped to 0 past the end). -/
def linearFillStep (controlPoints : List Point3) (tubeSegmentsBetweenControlPoints : ℕ)
    (s : ℕ) (buf : List Point3) : List Point3 :=
  let controlPointCurrent := getPt controlPoints s
  let nextIndex := if s + 1 ≥ controlPoints.length then 0 else s + 1
  let controlPointNext := getPt controlPoints nextIndex
  (List.range tubeSegmentsBetweenControlPoints).foldl (fun (b : List Point3) (i : ℕ) =>
    let interpolationParam : ℚ := (i : ℚ) / (tubeSegmentsBetweenControlPoints : ℚ)
    b.set (s * tubeSegmentsBetweenControlPoints + i)
      ⟨(1 - interpolationParam) * controlPointCurrent.x + interpolationParam * controlPointNext.x,
       (1 - interpolationParam) * controlPointCurrent.y + interpolationParam * controlPointNext.y,
       (1 - interpolationParam) * controlPointCurrent.z + interpolationParam * controlPointNext.z⟩) buf

/-- The dense curve buffer of `GeneratePiecewiseLinearCurveModel` before the
optional `CloseLoop` (lines 271-317): allocation, the interpolation loop, and
the exact final control point write. -/
def linearCurvePointsRaw (controlPoints : List Point3)
    (tubeSegmentsBetweenControlPoints : ℕ) (tubeLoop : Bool) : List Point3 :=
  let numberControlPoints := controlPoints.length
  let numberSegmentsToInterpolate := if tubeLoop then numberControlPoints else numberControlPoints - 1
  let buf := AllocateCurvePoints numberControlPoints tubeSegmentsBetweenControlPoints tubeLoop
  let filled := (List.range numberSegmentsToInterpolate).foldl
    (fun (b : List Point3) (s : ℕ) => linearFillStep controlPoints tubeSegmentsBetweenControlPoints s b) buf
  filled.set (tubeSegmentsBetweenControlPoints * numberSegmentsToInterpolate)
    (getPt controlPoints (numberSegmentsToInterpolate % numberControlPoints))

/-- The dense curve points handed by `GeneratePiecewiseLinearCurveModel` to
`GetTubePolyDataFromPoints` (lines 271-323): the raw buffer, closed by
`CloseLoop` when looped. -/
def linearCurvePoints (controlPoints : List Point3)
    (tubeSegmentsBetweenControlPoints : ℕ) (tubeLoop : Bool) : List Point3 :=
  let raw := linearCurvePointsRaw controlPoints tubeSegmentsBetweenControlPoints tubeLoop
  if tubeLoop then CloseLoop raw else raw

/-- `GeneratePiecewiseLinearCurveModel` (lines 241-326). -/
def GeneratePiecewiseLinearCurveModel (tubeFilter : PolyData → ℚ → ℕ → PolyData)
    (sphereSource : ℚ → ℕ → Point3 → PolyData)
    (controlPoints : Option (List Point3)) (outputTubePolyData : PolyData)
    (tubeRadius : ℚ) (tubeNumberOfSides tubeSegmentsBetweenControlPoints : ℕ)
    (tubeLoop : Bool) : PolyData × List Warning :=
  match controlPoints with
  | none => (outputTubePolyData, [Warning.nullInput])
  | some cps =>
    let numberControlPoints := cps.length
    if numberControlPoints = 0 then
      (outputTubePolyData, [])
    else if numberControlPoints = 1 then
      GenerateSphereModel sphereSource (some (getPt cps 0)) outputTubePolyData tubeRadius tubeNumberOfSides
    else
      GetTubePolyDataFromPoints tubeFilter
        (some (linearCurvePoints cps tubeSegmentsBetweenControlPoints tubeLoop))
        outputTubePolyData tubeRadius tubeNumberOfSides

/-- `SetCardinalSplineParameters` (lines 78-95): configuring a
`vtkCardinalSpline` amounts to choosing the closed flag and feeding the
per-axis coordinates at integer indices; `cardinalSpline` is the external
collaborator mapping that configuration to the spline evaluation function. -/
def SetCardinalSplineParameters (cardinalSpline : Bool → List ℚ → ℚ → ℚ)
    (controlPoints : List Point3) (tubeLoop : Bool) : (ℚ → ℚ) × (ℚ → ℚ) × (ℚ → ℚ) :=
  (cardinalSpline tubeLoop (controlPoints.map Point3.x),
   cardinalSpline tubeLoop (controlPoints.map Point3.y),
   cardinalSpline tubeLoop (controlPoints.map Point3.z))

/-- Everything `SetKochanekSplineParameters` (lines 98-167) sets on one
per-axis `vtkKochanekSpline` instance. -/
structure KochanekSplineSetup where
  closed : Bool
  defaultBias : ℚ
  defaultContinuity : ℚ
  defaultTension : ℚ
  knots : List ℚ
  leftConstraint : ℤ
  leftValue : ℚ
  rightConstraint : ℤ
  rightValue : ℚ
deriving DecidableEq

/-- `SetKochanekSplineParameters` (lines 98-167), one axis: closed flag,
shape parameters, per-axis coordinates at integer indices, and the end
constraints (mode 1 with the nearest finite difference when
`kochanekEndsCopyNearestDerivatives`, else mode 0; values left at the
VTK default 0 in mode 0). -/
def kochanekAxisSetup (coord : Point3 → ℚ) (controlPoints : List Point3) (tubeLoop : Bool)
    (kochanekBias kochanekContinuity kochanekTension : ℚ)
    (kochanekEndsCopyNearestDerivatives : Bool) : KochanekSplineSetup :=
  let numberControlPoints := controlPoints.length
  if kochanekEndsCopyNearestDerivatives then
    { closed := tubeLoop, defaultBias := kochanekBias, defaultContinuity := kochanekContinuity,
      defaultTension := kochanekTension, knots := controlPoints.map coord,
      leftConstraint := 1,
      leftValue := coord (getPt controlPoints 1) - coord (getPt controlPoints 0),
      rightConstraint := 1,
      rightValue := coord (getPt controlPoints (numberControlPoints - 1))
        - coord (getPt controlPoints (numberControlPoints - 2)) }
  else
    { closed := tubeLoop, defaultBias := kochanekBias, defaultContinuity := kochanekContinuity,
      defaultTension := kochanekTension, knots := controlPoints.map coord,
      leftConstraint := 0, leftValue := 0, rightConstraint := 0, rightValue := 0 }

/-- `SetKochanekSplineParameters` (lines 98-167), all three axes;
`kochanekSpline` is the external collaborator mapping a configured spline
to its evaluation function. -/
def SetKochanekSplineParameters (kochanekSpline : KochanekSplineSetup → ℚ → ℚ)
    (controlPoints : List Point3) (tubeLoop : Bool)
    (kochanekBias kochanekContinuity kochanekTension : ℚ)
    (kochanekEndsCopyNearestDerivatives : Bool) : (ℚ → ℚ) × (ℚ → ℚ) × (ℚ → ℚ) :=
  (kochanekSpline (kochanekAxisSetup Point3.x controlPoints tubeLoop kochanekBias kochanekContinuity kochanekTension kochanekEndsCopyNearestDerivatives),
   kochanekSpline (kochanekAxisSetup Point3.y controlPoints tubeLoop kochanekBias kochanekContinuity kochanekTension kochanekEndsCopyNearestDerivatives),
   kochanekSpline (kochanekAxisSetup Point3.z controlPoints tubeLoop kochanekBias kochanekContinuity kochanekTension kochanekEndsCopyNearestDerivatives))

/-- One outer iteration of the spline interpolation loop shared verbatim by
`GenerateCardinalSplineCurveModel` (lines 386-401) and
`GenerateKochanekSplineCurveModel` (lines 478-493): segment `s` writes the
spline evaluations at parameters `s + i / tubeSegmentsBetweenControlPoints`. -/
def splineFillStep (evalX evalY evalZ : ℚ → ℚ) (tubeSegmentsBetweenControlPoints : ℕ)
    (s : ℕ) (buf : List Point3) : List Point3 :=
  (List.range tubeSegmentsBetweenControlPoints).foldl (fun (b : List Point3) (i : ℕ) =>
    let interpolationParam : ℚ := (s : ℚ) + (i : ℚ) / (tubeSegmentsBetweenControlPoints : ℚ)
    b.set (s * tubeSegmentsBetweenControlPoints + i)
      ⟨evalX interpolationParam, evalY interpolationParam, evalZ interpolationParam⟩) buf

/-- The dense spline curve buffer before the optional `CloseLoop`
(cardinal lines 371-407, Kochanek lines 463-499): allocation, the
interpolation loop, and the exact final control point write. -/
def splineCurvePointsRaw (evalX evalY evalZ : ℚ → ℚ) (controlPoints : List Point3)
    (tubeSegmentsBetweenControlPoints : ℕ) (tubeLoop : Bool) : List Point3 :=
  let numberControlPoints := controlPoints.length
  let numberSegmentsToInterpolate := if tubeLoop then numberControlPoints else numberControlPoints - 1
  let buf := AllocateCurvePoints numberControlPoints tubeSegmentsBetweenControlPoints tubeLoop
  let filled := (List.range numberSegmentsToInterpolate).foldl
    (fun (b : List Point3) (s : ℕ) => splineFillStep evalX evalY evalZ tubeSegmentsBetweenControlPoints s b) buf
  filled.set (tubeSegmentsBetweenControlPoints * numberSegmentsToInterpolate)
    (getPt controlPoints (numberSegmentsToInterpolate % numberControlPoints))

/-- The dense spline curve points handed to `GetTubePolyDataFromPoints`
(cardinal lines 371-415, Kochanek lines 463-507): the raw buffer, closed by
`CloseLoop` when looped. -/
def splineCurvePoints (evalX evalY evalZ : ℚ → ℚ) (controlPoints : List Point3)
    (tubeSegmentsBetweenControlPoints : ℕ) (tubeLoop : Bool) : List Point3 :=
  let raw := splineCurvePointsRaw evalX evalY evalZ controlPoints tubeSegmentsBetweenControlPoints tubeLoop
  if tubeLoop then CloseLoop raw else raw

/-- `GenerateCardinalSplineCurveModel` (lines 329-416). -/
def GenerateCardinalSplineCurveModel (tubeFilter : PolyData → ℚ → ℕ → PolyData)
    (sphereSource : ℚ → ℕ → Point3 → PolyData)
    (cardinalSpline : Bool → List ℚ → ℚ → ℚ)
    (controlPoints : Option (List Point3)) (outputTubePolyData : PolyData)
    (tubeRadius : ℚ) (tubeNumberOfSides tubeSegmentsBetweenControlPoints : ℕ)
    (tubeLoop : Bool) : PolyData × List Warning :=
  match controlPoints with
  | none => (outputTubePolyData, [Warning.nullInput])
  | some cps =>
    let numberControlPoints := cps.length
    if numberControlPoints = 0 then
      (outputTubePolyData, [])
    else if numberControlPoints = 1 then
      GenerateSphereModel sphereSource (some (getPt cps 0)) outputTubePolyData tubeRadius tubeNumberOfSides
    else if numberControlPoints = 2 then
      GeneratePiecewiseLinearCurveModel tubeFilter sphereSource (some cps) outputTubePolyData
        tubeRadius tubeNumberOfSides tubeSegmentsBetweenControlPoints tubeLoop
    else
      let evals := SetCardinalSplineParameters cardinalSpline cps tubeLoop
      GetTubePolyDataFromPoints tubeFilter
        (some (splineCurvePoints evals.1 evals.2.1 evals.2.2 cps tubeSegmentsBetweenControlPoints tubeLoop))
        outputTubePolyData tubeRadius tubeNumberOfSides

/-- `GenerateKochanekSplineCurveModel` (lines 419-508). -/
def GenerateKochanekSplineCurveModel (tubeFilter : PolyData → ℚ → ℕ → PolyData)
    (sphereSource : ℚ → ℕ → Point3 → PolyData)
    (kochanekSpline : KochanekSplineSetup → ℚ → ℚ)
    (controlPoints : Option (List Point3)) (outputTubePolyData : PolyData)
    (tubeRadius : ℚ) (tubeNumberOfSides tubeSegmentsBetweenControlPoints : ℕ)
    (tubeLoop : Bool)
    (kochanekBias kochanekContinuity kochanekTension : ℚ)
    (kochanekEndsCopyNearestDerivatives : Bool) : PolyData × List Warning :=
  match controlPoints with
  | none => (outputTubePolyData, [Warning.nullInput])
  | some cps =>
    let numberControlPoints := cps.length
    if numberControlPoints = 0 then
      (outputTubePolyData, [])
    else if numberControlPoints = 1 then
      GenerateSphereModel sphereSource (some (getPt cps 0)) outputTubePolyData tubeRadius tubeNumberOfSides
    else if numberControlPoints = 2 then
      GeneratePiecewiseLinearCurveModel tubeFilter sphereSource (some cps) outputTubePolyData
        tubeRadius tubeNumberOfSides tubeSegmentsBetweenControlPoints tubeLoop
    else
      let evals := SetKochanekSplineParameters kochanekSpline cps tubeLoop
        kochanekBias kochanekContinuity kochanekTension kochanekEndsCopyNearestDerivatives
      GetTubePolyDataFromPoints tubeFilter
        (some (splineCurvePoints evals.1 evals.2.1 evals.2.2 cps tubeSegmentsBetweenControlPoints tubeLoop))
        outputTubePolyData tubeRadius tubeNumberOfSides

/-- `ComputePointParametersFromIndices` (lines 696-731).  The output array is
passed in (`pointParameters`) and the new contents are returned; the source
clears stale contents (with a warning) before writing `v / (numPoints - 1)`
for each index. -/
def ComputePointParametersFromIndices (points : Option (List Point3))
    (pointParameters : List ℚ) : List ℚ × List Warning :=
  match points with
  | none => (pointParameters, [Warning.nullInput])
  | some pts =>
    let numPoints := pts.length
    if numPoints < 2 then
      (pointParameters, [Warning.insufficientPoints])
    else
      let clearWarnings := if pointParameters.length ≠ 0 then [Warning.clearedStaleContents] else []
      ((List.range numPoints).map (fun (v : ℕ) => (v : ℚ) / ((numPoints - 1 : ℕ) : ℚ)), clearWarnings)

/-- The order clamp of `GeneratePolynomialCurveModel` (lines 574-581):
orders above the maximum 6 are clamped to 6 with a warning; nothing else is
changed. -/
def clampPolynomialOrder (polynomialOrder : ℤ) : ℤ × List Warning :=
  let maximumPolynomialOrder : ℤ := 6
  if polynomialOrder > maximumPolynomialOrder then
    (maximumPolynomialOrder, [Warning.unsupportedOrder])
  else
    (polynomialOrder, [])

/-- The coefficient-count computation of `GeneratePolynomialCurveModel`
(lines 583-593): `polynomialOrder + 1`, reduced to the number of distinct
point parameters when the system would be underdetermined. -/
def polynomialCoefficientCount (polynomialOrder : ℤ) (pointParameters : List ℚ) : ℤ :=
  let numPolynomialCoefficients := polynomialOrder + 1
  let numUniquePointParameters := pointParameters.dedup.length
  if (numUniquePointParameters : ℤ) < numPolynomialCoefficients then
    (numUniquePointParameters : ℤ)
  else
    numPolynomialCoefficients

/-- The dense sampling loop of `GeneratePolynomialCurveModel` (lines 652-670):
point `p` of the curve is the fitted polynomial evaluated at
`p / (numPointsOnCurve - 1)`, one coordinate sum per dimension, coefficient
`c`, dimension `d` read from `coefficientValues[c*3+d]`. -/
def polynomialCurvePoints (coefficientRows : List (List ℚ))
    (numPolynomialCoefficients numPointsOnCurve : ℕ) : List Point3 :=
  (List.range numPointsOnCurve).map (fun (p : ℕ) =>
    let t : ℚ := (p : ℚ) / ((numPointsOnCurve - 1 : ℕ) : ℚ)
    let coordAt := fun (d : ℕ) =>
      ((List.range numPolynomialCoefficients).map
        (fun (c : ℕ) => ((coefficientRows.getD c []).getD d 0) * t ^ c)).sum
    ⟨coordAt 0, coordAt 1, coordAt 2⟩)

/-- The fit-and-sample stage of `GeneratePolynomialCurveModel`
(lines 560-676): order clamp, coefficient count, design and target matrices,
the least-squares solve, and the dense sampling; returns the smoothed line
poly data together with the clamp warning.  `solveLeastSquares` is the
external `vtkMath::SolveLeastSquares` collaborator: (numPoints, independent
matrix, numCoefficients, dependent matrix, numDimensions) to the coefficient
matrix (one row per coefficient, one column per dimension). -/
def polynomialFitAndSample
    (solveLeastSquares : ℕ → List (List ℚ) → ℕ → List (List ℚ) → ℕ → List (List ℚ))
    (pts : List Point3) (tubeSegmentsBetweenControlPoints : ℕ)
    (polynomialOrder : ℤ) (pointParameters : List ℚ) : PolyData × List Warning :=
  let numPoints := pts.length
  let clamped := clampPolynomialOrder polynomialOrder
  let numPolynomialCoefficients := polynomialCoefficientCount clamped.1 pointParameters
  let independentMatrix := (List.range numPoints).map (fun (p : ℕ) =>
    (List.range numPolynomialCoefficients.toNat).map
      (fun (c : ℕ) => (pointParameters.getD p 0) ^ c))
  let dependentMatrix := pts.map (fun (q : Point3) => [q.x, q.y, q.z])
  let coefficientRows := solveLeastSquares numPoints independentMatrix
    numPolynomialCoefficients.toNat dependentMatrix 3
  let numPointsOnCurve := (numPoints - 1) * tubeSegmentsBetweenControlPoints + 1
  let smoothedPoints := polynomialCurvePoints coefficientRows
    numPolynomialCoefficients.toNat numPointsOnCurve
  ({ points := smoothedPoints, lines := [List.range numPointsOnCurve] }, clamped.2)

/-- `GeneratePolynomialCurveModel` (lines 511-693).

Note on lines 688-691 of the source: the radius-0 branch writes the line
poly data through the identifier `outputTube`, which is not declared in this
function (its output argument is `outputTubePolyData`; `outputTube` is the
argument name of `GetTubePolyDataFromPoints`).  As written the source does
not compile.  The branch is modelled here as the write to the function's
output that the surrounding code and the matching radius-0 branch of
`GetTubePolyDataFromPoints` (lines 208-211) clearly intend. -/
def GeneratePolynomialCurveModel (tubeFilter : PolyData → ℚ → ℕ → PolyData)
    (sphereSource : ℚ → ℕ → Point3 → PolyData)
    (solveLeastSquares : ℕ → List (List ℚ) → ℕ → List (List ℚ) → ℕ → List (List ℚ))
    (points : Option (List Point3)) (outputTubePolyData : PolyData)
    (tubeRadius : ℚ) (tubeNumberOfSides tubeSegmentsBetweenControlPoints : ℕ)
    (tubeLoop : Bool) (polynomialOrder : ℤ)
    (inputPointParameters : Option (List ℚ)) : PolyData × List Warning :=
  match points with
  | none => (outputTubePolyData, [Warning.nullInput])
  | some pts =>
    let numPoints := pts.length
    if numPoints = 0 then
      (outputTubePolyData, [])
    else if numPoints = 1 then
      GenerateSphereModel sphereSource (some (getPt pts 0)) outputTubePolyData tubeRadius tubeNumberOfSides
    else if numPoints = 2 then
      GeneratePiecewiseLinearCurveModel tubeFilter sphereSource (some pts) outputTubePolyData
        tubeRadius tubeNumberOfSides tubeSegmentsBetweenControlPoints tubeLoop
    else
      let paramsChoice : Option (List ℚ × List Warning) :=
        match inputPointParameters with
        | none => some (ComputePointParametersFromIndices (some pts) [])
        | some pp => if pp.length ≠ numPoints then none else some (pp, [])
      match paramsChoice with
      | none => (outputTubePolyData, [Warning.parameterCountMismatch])
      | some pc =>
        let fit := polynomialFitAndSample solveLeastSquares pts
          tubeSegmentsBetweenControlPoints polynomialOrder pc.1
        if tubeRadius > 0 then
          (tubeFilter fit.1 tubeRadius tubeNumberOfSides, pc.2 ++ fit.2)
        else
          (fit.1, pc.2 ++ fit.2)

/-! ### Minimum-spanning-tree parameterization (lines 734-925) -/

/-- The Euclidean distance of lines 777-783; `sqrtF` is the external C
`sqrt`. -/
def dist3D (sqrtF : ℚ → ℚ) (pointU pointV : Point3) : ℚ :=
  let distX := pointU.x - pointV.x
  let distY := pointU.y - pointV.y
  let distZ := pointU.z - pointV.z
  sqrtF (distX * distX + distY * distY + distZ * distZ)

/-- The distance matrix of lines 766-798, row `v`, column `u`. -/
def mstGraph (sqrtF : ℚ → ℚ) (pts : List Point3) : List (List ℚ) :=
  (List.range pts.length).map (fun (v : ℕ) =>
    (List.range pts.length).map (fun (u : ℕ) =>
      dist3D sqrtF (getPt pts u) (getPt pts v)))

/-- Entry `graph[a][b]` of the distance matrix. -/
def graphAt (graph : List (List ℚ)) (a b : ℕ) : ℚ :=
  (graph.getD a []).getD b 0

/-- The farthest-pair scan of lines 769-792: iterate `v` then `u`, updating
`(maximumDistance, treeStartIndex, treeEndIndex)` on strictly greater
distance; result is `(treeStartIndex, treeEndIndex)`. -/
def mstFarthestPair (sqrtF : ℚ → ℚ) (pts : List Point3) : ℕ × ℕ :=
  let numPoints := pts.length
  let final := (List.range numPoints).foldl (fun (st : ℚ × ℕ × ℕ) (v : ℕ) =>
    (List.range numPoints).foldl (fun (st : ℚ × ℕ × ℕ) (u : ℕ) =>
      let d := dist3D sqrtF (getPt pts u) (getPt pts v)
      if d > st.1 then (d, v, u) else st) st) (0, 0, 0)
  final.2

/-- `a < b` on keys where `none` models `VTK_DOUBLE_MAX` (lines 823-831:
the sentinel is never strictly below itself and every finite key is). -/
def keyLt (a b : Option ℚ) : Bool :=
  match a, b with
  | some qa, some qb => qa < qb
  | some _, none => true
  | none, _ => false

/-- The state of Prim's algorithm (lines 802-811): parent pointers, keys
(`none` = `VTK_DOUBLE_MAX`), and the included-vertex flags.  The source
leaves `parent` entries other than the root uninitialised; they are 0 here
and are all overwritten before being read (every non-root vertex receives a
parent in the first update pass). -/
structure PrimState where
  parent : List ℤ
  key : List (Option ℚ)
  mstSet : List Bool

/-- The minimum-key scan of lines 820-831: returns the picked vertex
(`-1` when every unvisited key is the sentinel, as in the source). -/
def primPick (st : PrimState) (numPoints : ℕ) : ℤ :=
  let final := (List.range numPoints).foldl (fun (acc : Option ℚ × ℤ) (v : ℕ) =>
    if st.mstSet.getD v false = false ∧ keyLt (st.key.getD v none) acc.1 then
      (st.key.getD v none, (v : ℤ))
    else acc) (none, -1)
  final.2

/-- The key/parent update pass of lines 839-851. -/
def primUpdate (graph : List (List ℚ)) (nextPointIndex : ℕ) (numPoints : ℕ)
    (st : PrimState) : PrimState :=
  (List.range numPoints).foldl (fun (st : PrimState) (v : ℕ) =>
    let g := graphAt graph nextPointIndex v
    if g ≥ 0 ∧ st.mstSet.getD v false = false ∧ keyLt (some g) (st.key.getD v none) then
      { st with parent := st.parent.set v (nextPointIndex : ℤ), key := st.key.set v (some g) }
    else st) st

/-- Prim's algorithm (lines 800-852): `numPoints - 1` rounds of pick, mark,
update, starting from `treeStartIndex`; returns the parent array. -/
def primMST (graph : List (List ℚ)) (numPoints treeStartIndex : ℕ) : List ℤ :=
  let init : PrimState :=
    { parent := (List.replicate numPoints (0 : ℤ)).set treeStartIndex (-1),
      key := (List.replicate numPoints (none : Option ℚ)).set treeStartIndex (some 0),
      mstSet := List.replicate numPoints false }
  let final := (List.range (numPoints - 1)).foldl (fun (st : PrimState) (_ : ℕ) =>
    let nextPointIndex := primPick st numPoints
    let st := { st with mstSet := st.mstSet.set nextPointIndex.toNat true }
    primUpdate graph nextPointIndex.toNat numPoints st) init
  final.parent

/-- The trunk-path walk of lines 854-861: follow parent pointers from
`treeEndIndex` until the root sentinel `-1`.  The walk is fuelled with
`numPoints + 1` steps, enough for any parent chain in a spanning tree of
`numPoints` vertices. -/
def mstTrunk (parent : List ℤ) : ℕ → ℤ → List ℤ
  | 0, _ => []
  | fuel + 1, currentPathIndex =>
    if currentPathIndex = -1 then []
    else currentPathIndex :: mstTrunk parent fuel (parent.getD currentPathIndex.toNat 0)

/-- The trunk-length sum of lines 863-868.  Note the source sums
`graph[i][i + 1]` over the loop counter `i`, i.e. the distances between
consecutively *indexed* input points, not the edges of the trunk path. -/
def mstTrunkSum (graph : List (List ℚ)) (pathLength : ℕ) : ℚ :=
  ((List.range (pathLength - 1)).map (fun (i : ℕ) => graphAt graph i (i + 1))).sum

/-- The trunk parameter accumulation of lines 877-885: running
`currentDistance / sumOfDistances` along the walk positions (again stepping
by `graph[i][i + 1]` on the loop counter), with the final value appended. -/
def mstPathParameters (graph : List (List ℚ)) (pathLength : ℕ)
    (sumOfDistances : ℚ) : List ℚ :=
  let st := (List.range (pathLength - 1)).foldl (fun (st : List ℚ × ℚ) (i : ℕ) =>
    (st.1 ++ [st.2 / sumOfDistances], st.2 + graphAt graph i (i + 1))) ([], 0)
  st.1 ++ [st.2 / sumOfDistances]

/-- The per-vertex trunk search of lines 896-922: the position of the first
trunk vertex reached from `i` by walking parent pointers (0 steps when `i` is
on the trunk).  Fuelled like `mstTrunk`; the source's loop always terminates
because the trunk contains the root. -/
def mstFindAlongPath (parent : List ℤ) (pathIndices : List ℤ) : ℕ → ℤ → ℕ
  | 0, _ => 0
  | fuel + 1, currentIndex =>
    match pathIndices.findIdx? (fun (j : ℤ) => j = currentIndex) with
    | some j => j
    | none => mstFindAlongPath parent pathIndices fuel (parent.getD currentIndex.toNat 0)

/-- The parent array produced for the input points (lines 766-852). -/
def mstParentArray (sqrtF : ℚ → ℚ) (pts : List Point3) : List ℤ :=
  primMST (mstGraph sqrtF pts) pts.length (mstFarthestPair sqrtF pts).1

/-- The trunk path for the input points (lines 854-861). -/
def mstPathIndices (sqrtF : ℚ → ℚ) (pts : List Point3) : List ℤ :=
  mstTrunk (mstParentArray sqrtF pts) (pts.length + 1) ((mstFarthestPair sqrtF pts).2 : ℤ)

/-- The `sumOfDistances` value for the input points (lines 863-868). -/
def mstSumOfDistances (sqrtF : ℚ → ℚ) (pts : List Point3) : ℚ :=
  mstTrunkSum (mstGraph sqrtF pts) (mstPathIndices sqrtF pts).length

/-- `ComputePointParametersFromMinimumSpanningTree` (lines 734-925). -/
def ComputePointParametersFromMinimumSpanningTree (sqrtF : ℚ → ℚ)
    (points : Option (List Point3)) (pointParameters : List ℚ) : List ℚ × List Warning :=
  match points with
  | none => (pointParameters, [Warning.nullInput])
  | some pts =>
    let numPoints := pts.length
    if numPoints < 2 then
      (pointParameters, [Warning.insufficientPoints])
    else
      let graph := mstGraph sqrtF pts
      let parent := mstParentArray sqrtF pts
      let pathIndices := mstPathIndices sqrtF pts
      let sumOfDistances := mstSumOfDistances sqrtF pts
      if sumOfDistances = 0 then
        (pointParameters, [Warning.degenerateInput])
      else
        let pathParameters := mstPathParameters graph pathIndices.length sumOfDistances
        let clearWarnings := if pointParameters.length ≠ 0 then [Warning.clearedStaleContents] else []
        ((List.range numPoints).map (fun (i : ℕ) =>
          pathParameters.getD (mstFindAlongPath parent pathIndices (numPoints + 1) (i : ℤ)) 0),
         clearWarnings)

/-! ### Concrete values used by the evaluation theorems and witnesses -/

/-- A square-root collaborator fixed on the perfect squares that arise in the
concrete evaluations below (the C `sqrt` agrees with it there). -/
def sqrtSmall : ℚ → ℚ :=
  fun q => if q = 0 then 0 else if q = 1 then 1 else if q = 4 then 2 else if q = 9 then 3 else 0

/-- Three collinear points at unit spacing. -/
def linePts : List Point3 := [⟨0, 0, 0⟩, ⟨1, 0, 0⟩, ⟨2, 0, 0⟩]

/-- Three collinear points listed out of order: index order 0,1,2 visits
x-coordinates 0,3,1 while the minimum-spanning-tree trunk visits 1,2,0. -/
def bentPts : List Point3 := [⟨0, 0, 0⟩, ⟨3, 0, 0⟩, ⟨1, 0, 0⟩]

/-- Two concrete control points. -/
def w2pts : List Point3 := [⟨0, 0, 0⟩, ⟨1, 0, 0⟩]

/-- Three concrete non-collinear control points. -/
def w3pts : List Point3 := [⟨0, 0, 0⟩, ⟨1, 1, 0⟩, ⟨2, 0, 1⟩]

/-- A concrete pre-existing output mesh (to witness no-op behaviour). -/
def outW : PolyData := { points := [⟨5, 5, 5⟩], lines := [[0]] }

/-- A concrete tube-filter collaborator. -/
def tubeFilterW : PolyData → ℚ → ℕ → PolyData :=
  fun pd _ sides => { points := pd.points, lines := pd.lines ++ [[sides]] }

/-- A concrete sphere-source collaborator. -/
def sphereSourceW : ℚ → ℕ → Point3 → PolyData :=
  fun _ _ p => { points := [p], lines := [] }

/-- A concrete cardinal-spline collaborator. -/
def cardinalSplineW : Bool → List ℚ → ℚ → ℚ := fun _ _ q => q

/-- A concrete Kochanek-spline collaborator. -/
def kochanekSplineW : KochanekSplineSetup → ℚ → ℚ := fun _ q => q

/-- A concrete least-squares collaborator. -/
def solveLeastSquaresW : ℕ → List (List ℚ) → ℕ → List (List ℚ) → ℕ → List (List ℚ) :=
  fun _ _ _ _ _ => [[1, 0, 0]]

/-- The identity as a square-root collaborator (adequate where only
zero/nonzero matters). -/
def sqrtW : ℚ → ℚ := fun q => q

/-! ### Helper lemmas -/

set_option maxHeartbeats 1600000
set_option maxRecDepth 8000

theorem getD_set_self {α : Type} (l : List α) (n : ℕ) (a d : α) (h : n < l.length) :
    (l.set n a).getD n d = a := by
  simp [List.getD, List.getElem?_set_eq_of_lt a h]

theorem getD_set_ne {α : Type} (l : List α) (m n : ℕ) (a d : α) (h : m ≠ n) :
    (l.set m a).getD n d = l.getD n d := by
  simp [List.getD, List.getElem?_set_ne h]

theorem foldl_length_eq {α β : Type} (f : List α → β → List α)
    (hf : ∀ b x, (f b x).length = b.length) :
    ∀ (xs : List β) (init : List α), (xs.foldl f init).length = init.length := by
  intro xs
  induction xs with
  | nil => intro init; rfl
  | cons x xs ih => intro init; rw [List.foldl_cons, ih, hf]

theorem length_linearFillStep (cps : List Point3) (segs s : ℕ) (buf : List Point3) :
    (linearFillStep cps segs s buf).length = buf.length := by
  unfold linearFillStep
  exact foldl_length_eq _ (fun b i => by simp) _ _

theorem length_splineFillStep (evalX evalY evalZ : ℚ → ℚ) (segs s : ℕ) (buf : List Point3) :
    (splineFillStep evalX evalY evalZ segs s buf).length = buf.length := by
  unfold splineFillStep
  exact foldl_length_eq _ (fun b i => by simp) _ _

theorem length_AllocateCurvePoints (numberControlPoints segs : ℕ) (tubeLoop : Bool) :
    (AllocateCurvePoints numberControlPoints segs tubeLoop).length
      = if tubeLoop then numberControlPoints * segs + 2 else (numberControlPoints - 1) * segs + 1 := by
  unfold AllocateCurvePoints
  cases tubeLoop <;> simp

theorem length_linearCurvePointsRaw (cps : List Point3) (segs : ℕ) (tubeLoop : Bool) :
    (linearCurvePointsRaw cps segs tubeLoop).length
      = (AllocateCurvePoints cps.length segs tubeLoop).length := by
  unfold linearCurvePointsRaw
  rw [List.length_set]
  exact foldl_length_eq _ (fun b s => length_linearFillStep cps segs s b) _ _

theorem length_splineCurvePointsRaw (evalX evalY evalZ : ℚ → ℚ) (cps : List Point3)
    (segs : ℕ) (tubeLoop : Bool) :
    (splineCurvePointsRaw evalX evalY evalZ cps segs tubeLoop).length
      = (AllocateCurvePoints cps.length segs tubeLoop).length := by
  unfold splineCurvePointsRaw
  rw [List.length_set]
  exact foldl_length_eq _ (fun b s => length_splineFillStep evalX evalY evalZ segs s b) _ _

theorem closeLoop_getD (l : List Point3) (h : 2 ≤ l.length) :
    (CloseLoop l).getD 0 origin = closeLoopMidpoint l
    ∧ (CloseLoop l).getD ((CloseLoop l).length - 1) origin = closeLoopMidpoint l
    ∧ (CloseLoop l).length = l.length := by
  unfold CloseLoop
  have hlen : ((l.set 0 (closeLoopMidpoint l)).set (l.length - 1) (closeLoopMidpoint l)).length
      = l.length := by simp
  refine ⟨?_, ?_, hlen⟩
  · rw [getD_set_ne _ _ _ _ _ (by omega)]
    exact getD_set_self _ _ _ _ (by simpa using by omega)
  · rw [hlen]
    exact getD_set_self _ _ _ _ (by simpa using by omega)

theorem cppfi_fresh (pts : List Point3) (h : 2 ≤ pts.length) :
    ComputePointParametersFromIndices (some pts) []
      = ((List.range pts.length).map (fun (v : ℕ) => (v : ℚ) / ((pts.length - 1 : ℕ) : ℚ)), []) := by
  simp [ComputePointParametersFromIndices, show ¬pts.length < 2 by omega]

theorem cppfi_length (pts : List Point3) (h : 2 ≤ pts.length) :
    (ComputePointParametersFromIndices (some pts) []).1.length = pts.length := by
  rw [cppfi_fresh pts h]
  simp

theorem int_toNat_zero_eq : Int.toNat 0 = 0 := rfl

theorem int_toNat_one_eq : Int.toNat 1 = 1 := rfl

theorem int_toNat_two_eq : Int.toNat 2 = 2 := rfl

theorem getD_map_range (f : ℕ → ℚ) (n i : ℕ) (h : i < n) :
    (((List.range n).map f).getD i 0) = f i := by
  simp [List.getD, List.getElem?_map, List.getElem?_range, h]

/-! ### Claim theorems -/

/-- C5: index-based parameterization requires at least 2 points (reporting an
insufficient-points condition and leaving the output untouched otherwise) and
assigns `parameter[i] = i / (N - 1)`, so the first parameter is 0, the last is
1, and the values are strictly increasing. -/
theorem C5_index_parameterization (pts : List Point3) (prior : List ℚ) :
    (2 ≤ pts.length →
      (ComputePointParametersFromIndices (some pts) prior).1
          = (List.range pts.length).map (fun (v : ℕ) => (v : ℚ) / ((pts.length - 1 : ℕ) : ℚ))
        ∧ (ComputePointParametersFromIndices (some pts) prior).1.getD 0 0 = 0
        ∧ (ComputePointParametersFromIndices (some pts) prior).1.getD (pts.length - 1) 0 = 1
        ∧ ∀ i j : ℕ, i < j → j < pts.length →
            (ComputePointParametersFromIndices (some pts) prior).1.getD i 0
              < (ComputePointParametersFromIndices (some pts) prior).1.getD j 0)
    ∧ (pts.length < 2 →
        ComputePointParametersFromIndices (some pts) prior = (prior, [Warning.insufficientPoints])) := by
  constructor
  · intro h
    have hmap : (ComputePointParametersFromIndices (some pts) prior).1
        = (List.range pts.length).map (fun (v : ℕ) => (v : ℚ) / ((pts.length - 1 : ℕ) : ℚ)) := by
      simp [ComputePointParametersFromIndices, show ¬pts.length < 2 by omega]
    have hc : (0 : ℚ) < ((pts.length - 1 : ℕ) : ℚ) := by
      have : 1 ≤ pts.length - 1 := by omega
      exact_mod_cast Nat.lt_of_lt_of_le Nat.zero_lt_one this
    refine ⟨hmap, ?_, ?_, ?_⟩
    · rw [hmap, getD_map_range _ _ _ (by omega)]
      simp
    · rw [hmap, getD_map_range _ _ _ (by omega)]
      exact div_self (ne_of_gt hc)
    · intro i j hij hj
      rw [hmap, getD_map_range _ _ _ (by omega), getD_map_range _ _ _ hj]
      exact (div_lt_div_iff_of_pos_right hc).mpr (by exact_mod_cast hij)
  · intro h
    simp [ComputePointParametersFromIndices, h]

/-- C5 witness: the theorem applied to three concrete points and a stale
prior array. -/
theorem C5_index_parameterization_witness :
    2 ≤ w3pts.length
    ∧ (ComputePointParametersFromIndices (some w3pts) [7]).1.getD 0 0 = 0
    ∧ (ComputePointParametersFromIndices (some w3pts) [7]).1.getD (w3pts.length - 1) 0 = 1 :=
  ⟨by decide,
   ((C5_index_parameterization w3pts [7]).1 (by decide)).2.1,
   ((C5_index_parameterization w3pts [7]).1 (by decide)).2.2.1⟩

/-- C7: every curve generator returns the output unmodified (and no error)
for 0 input points, and delegates to sphere generation — the external sphere
source applied to exactly the single input point, the tube radius and the
side count — for 1 input point. -/
theorem C7_degenerate_point_counts (tubeFilter : PolyData → ℚ → ℕ → PolyData)
    (sphereSource : ℚ → ℕ → Point3 → PolyData)
    (cardinalSpline : Bool → List ℚ → ℚ → ℚ) (kochanekSpline : KochanekSplineSetup → ℚ → ℚ)
    (solveLeastSquares : ℕ → List (List ℚ) → ℕ → List (List ℚ) → ℕ → List (List ℚ))
    (out : PolyData) (tubeRadius : ℚ) (tubeNumberOfSides tubeSegmentsBetweenControlPoints : ℕ)
    (tubeLoop : Bool) (kochanekBias kochanekContinuity kochanekTension : ℚ)
    (kochanekEndsCopyNearestDerivatives : Bool) (polynomialOrder : ℤ)
    (inputPointParameters : Option (List ℚ)) (p : Point3) :
    GeneratePiecewiseLinearCurveModel tubeFilter sphereSource (some []) out
        tubeRadius tubeNumberOfSides tubeSegmentsBetweenControlPoints tubeLoop = (out, [])
    ∧ GenerateCardinalSplineCurveModel tubeFilter sphereSource cardinalSpline (some []) out
        tubeRadius tubeNumberOfSides tubeSegmentsBetweenControlPoints tubeLoop = (out, [])
    ∧ GenerateKochanekSplineCurveModel tubeFilter sphereSource kochanekSpline (some []) out
        tubeRadius tubeNumberOfSides tubeSegmentsBetweenControlPoints tubeLoop
        kochanekBias kochanekContinuity kochanekTension kochanekEndsCopyNearestDerivatives = (out, [])
    ∧ GeneratePolynomialCurveModel tubeFilter sphereSource solveLeastSquares (some []) out
        tubeRadius tubeNumberOfSides tubeSegmentsBetweenControlPoints tubeLoop
        polynomialOrder inputPointParameters = (out, [])
    ∧ GeneratePiecewiseLinearCurveModel tubeFilter sphereSource (some [p]) out
        tubeRadius tubeNumberOfSides tubeSegmentsBetweenControlPoints tubeLoop
        = (sphereSource tubeRadius tubeNumberOfSides p, [])
    ∧ GenerateCardinalSplineCurveModel tubeFilter sphereSource cardinalSpline (some [p]) out
        tubeRadius tubeNumberOfSides tubeSegmentsBetweenControlPoints tubeLoop
        = (sphereSource tubeRadius tubeNumberOfSides p, [])
    ∧ GenerateKochanekSplineCurveModel tubeFilter sphereSource kochanekSpline (some [p]) out
        tubeRadius tubeNumberOfSides tubeSegmentsBetweenControlPoints tubeLoop
        kochanekBias kochanekContinuity kochanekTension kochanekEndsCopyNearestDerivatives
        = (sphereSource tubeRadius tubeNumberOfSides p, [])
    ∧ GeneratePolynomialCurveModel tubeFilter sphereSource solveLeastSquares (some [p]) out
        tubeRadius tubeNumberOfSides tubeSegmentsBetweenControlPoints tubeLoop
        polynomialOrder inputPointParameters
        = (sphereSource tubeRadius tubeNumberOfSides p, []) :=
  ⟨rfl, rfl, rfl, rfl, rfl, rfl, rfl, rfl⟩

/-- C9: with at least 3 points, a null parameter array is not an error: the
polynomial generator computes index-based parameters internally and its
output equals a run with the array produced by
`ComputePointParametersFromIndices` passed explicitly. -/
theorem C9_null_parameter_array (tubeFilter : PolyData → ℚ → ℕ → PolyData)
    (sphereSource : ℚ → ℕ → Point3 → PolyData)
    (solveLeastSquares : ℕ → List (List ℚ) → ℕ → List (List ℚ) → ℕ → List (List ℚ))
    (pts : List Point3) (out : PolyData) (tubeRadius : ℚ)
    (tubeNumberOfSides tubeSegmentsBetweenControlPoints : ℕ) (tubeLoop : Bool)
    (polynomialOrder : ℤ) (h : 3 ≤ pts.length) :
    GeneratePolynomialCurveModel tubeFilter sphereSource solveLeastSquares (some pts) out
        tubeRadius tubeNumberOfSides tubeSegmentsBetweenControlPoints tubeLoop
        polynomialOrder none
      = GeneratePolynomialCurveModel tubeFilter sphereSource solveLeastSquares (some pts) out
        tubeRadius tubeNumberOfSides tubeSegmentsBetweenControlPoints tubeLoop
        polynomialOrder (some (ComputePointParametersFromIndices (some pts) []).1) := by
  have hf := cppfi_fresh pts (by omega)
  simp [GeneratePolynomialCurveModel, hf, show pts.length ≠ 0 by omega,
    show pts.length ≠ 1 by omega, show pts.length ≠ 2 by omega]

/-- C9 witness: the theorem applied to three concrete points and concrete
collaborators. -/
theorem C9_null_parameter_array_witness :
    3 ≤ w3pts.length
    ∧ GeneratePolynomialCurveModel tubeFilterW sphereSourceW solveLeastSquaresW (some w3pts) outW
        1 8 5 false 3 none
      = GeneratePolynomialCurveModel tubeFilterW sphereSourceW solveLeastSquaresW (some w3pts) outW
        1 8 5 false 3 (some (ComputePointParametersFromIndices (some w3pts) []).1) :=
  ⟨by decide,
   C9_null_parameter_array tubeFilterW sphereSourceW solveLeastSquaresW w3pts outW 1 8 5 false 3
     (by decide)⟩

/-- C10: both parameterizers ignore pre-existing contents of the output
array: on success (at least 2 points; for the MST variant also a nonzero
trunk sum) the result has exactly one entry per input point and does not
depend on the prior contents. -/
theorem C10_parameter_array_reset (pts : List Point3) (prior : List ℚ) (sqrtF : ℚ → ℚ) :
    (2 ≤ pts.length →
      (ComputePointParametersFromIndices (some pts) prior).1.length = pts.length
      ∧ (ComputePointParametersFromIndices (some pts) prior).1
          = (ComputePointParametersFromIndices (some pts) []).1)
    ∧ (2 ≤ pts.length → mstSumOfDistances sqrtF pts ≠ 0 →
      (ComputePointParametersFromMinimumSpanningTree sqrtF (some pts) prior).1.length = pts.length
      ∧ (ComputePointParametersFromMinimumSpanningTree sqrtF (some pts) prior).1
          = (ComputePointParametersFromMinimumSpanningTree sqrtF (some pts) []).1) := by
  constructor
  · intro h
    simp [ComputePointParametersFromIndices, show ¬pts.length < 2 by omega]
  · intro h hsum
    simp [ComputePointParametersFromMinimumSpanningTree, show ¬pts.length < 2 by omega, hsum]

theorem w2_graph_eval : mstGraph sqrtW w2pts = [[0, 1], [1, 0]] := by
  norm_num [mstGraph, dist3D, getPt, List.range_succ, List.getD, sqrtW, w2pts]

theorem w2_pair_eval : mstFarthestPair sqrtW w2pts = (0, 1) := by
  norm_num [mstFarthestPair, dist3D, getPt, List.range_succ, List.getD, sqrtW, w2pts]

theorem w2_parent_eval : mstParentArray sqrtW w2pts = [-1, 0] := by
  rw [mstParentArray, w2_graph_eval, w2_pair_eval]
  norm_num [primMST, primPick, primUpdate, graphAt, keyLt, List.range_succ, List.getD,
    List.replicate_succ, int_toNat_zero_eq, int_toNat_one_eq, int_toNat_two_eq, w2pts]

theorem w2_path_eval : mstPathIndices sqrtW w2pts = [1, 0] := by
  rw [mstPathIndices, w2_parent_eval, w2_pair_eval]
  decide

theorem w2_sum_eval : mstSumOfDistances sqrtW w2pts = 1 := by
  rw [mstSumOfDistances, w2_graph_eval, w2_path_eval]
  norm_num [mstTrunkSum, graphAt, List.range_succ, List.getD]

/-- C10 witness: the theorem applied to two concrete points, a stale prior
array, and a concrete square root. -/
theorem C10_parameter_array_reset_witness :
    2 ≤ w2pts.length ∧ mstSumOfDistances sqrtW w2pts ≠ 0
    ∧ (ComputePointParametersFromMinimumSpanningTree sqrtW (some w2pts) [3]).1.length = w2pts.length :=
  ⟨by decide, by rw [w2_sum_eval]; norm_num,
   ((C10_parameter_array_reset w2pts [3] sqrtW).2 (by decide) (by rw [w2_sum_eval]; norm_num)).1⟩

theorem length_polynomialCurvePoints (coefficientRows : List (List ℚ))
    (numPolynomialCoefficients numPointsOnCurve : ℕ) :
    (polynomialCurvePoints coefficientRows numPolynomialCoefficients numPointsOnCurve).length
      = numPointsOnCurve := by
  simp [polynomialCurvePoints]

theorem line_graph_eval : mstGraph sqrtSmall linePts = [[0, 1, 2], [1, 0, 1], [2, 1, 0]] := by
  norm_num [mstGraph, dist3D, getPt, List.range_succ, List.getD, sqrtSmall, linePts]

theorem line_pair_eval : mstFarthestPair sqrtSmall linePts = (0, 2) := by
  norm_num [mstFarthestPair, dist3D, getPt, List.range_succ, List.getD, sqrtSmall, linePts]

theorem line_parent_eval : mstParentArray sqrtSmall linePts = [-1, 0, 1] := by
  rw [mstParentArray, line_graph_eval, line_pair_eval]
  norm_num [primMST, primPick, primUpdate, graphAt, keyLt, List.range_succ, List.getD,
    List.replicate_succ, int_toNat_zero_eq, int_toNat_one_eq, int_toNat_two_eq, linePts]

theorem line_path_eval : mstPathIndices sqrtSmall linePts = [2, 1, 0] := by
  rw [mstPathIndices, line_parent_eval, line_pair_eval]
  decide

theorem line_sum_eval : mstSumOfDistances sqrtSmall linePts = 2 := by
  rw [mstSumOfDistances, line_graph_eval, line_path_eval]
  norm_num [mstTrunkSum, graphAt, List.range_succ, List.getD]

theorem line_pathparams_eval :
    mstPathParameters [[0, 1, 2], [1, 0, 1], [2, 1, 0]] 3 2 = [0, 1/2, 1] := by
  norm_num [mstPathParameters, graphAt, List.range_succ, List.getD]

theorem line_find0_eval : mstFindAlongPath [-1, 0, 1] [2, 1, 0] 4 0 = 2 := by decide

theorem line_find1_eval : mstFindAlongPath [-1, 0, 1] [2, 1, 0] 4 1 = 1 := by decide

theorem line_find2_eval : mstFindAlongPath [-1, 0, 1] [2, 1, 0] 4 2 = 0 := by decide

theorem bent_graph_eval : mstGraph sqrtSmall bentPts = [[0, 3, 1], [3, 0, 2], [1, 2, 0]] := by
  norm_num [mstGraph, dist3D, getPt, List.range_succ, List.getD, sqrtSmall, bentPts]

theorem bent_pair_eval : mstFarthestPair sqrtSmall bentPts = (0, 1) := by
  norm_num [mstFarthestPair, dist3D, getPt, List.range_succ, List.getD, sqrtSmall, bentPts]

theorem bent_parent_eval : mstParentArray sqrtSmall bentPts = [-1, 2, 0] := by
  rw [mstParentArray, bent_graph_eval, bent_pair_eval]
  norm_num [primMST, primPick, primUpdate, graphAt, keyLt, List.range_succ, List.getD,
    List.replicate_succ, int_toNat_zero_eq, int_toNat_one_eq, int_toNat_two_eq, bentPts]

theorem bent_path_eval : mstPathIndices sqrtSmall bentPts = [1, 2, 0] := by
  rw [mstPathIndices, bent_parent_eval, bent_pair_eval]
  decide

theorem bent_sum_eval : mstSumOfDistances sqrtSmall bentPts = 5 := by
  rw [mstSumOfDistances, bent_graph_eval, bent_path_eval]
  norm_num [mstTrunkSum, graphAt, List.range_succ, List.getD]

theorem bent_pathparams_eval :
    mstPathParameters [[0, 3, 1], [3, 0, 2], [1, 2, 0]] 3 5 = [0, 3/5, 1] := by
  norm_num [mstPathParameters, graphAt, List.range_succ, List.getD]

theorem bent_find0_eval : mstFindAlongPath [-1, 2, 0] [1, 2, 0] 4 0 = 2 := by decide

theorem bent_find1_eval : mstFindAlongPath [-1, 2, 0] [1, 2, 0] 4 1 = 0 := by decide

theorem bent_find2_eval : mstFindAlongPath [-1, 2, 0] [1, 2, 0] 4 2 = 1 := by decide

/-- C1: evaluation of the MST parameterization.  On three collinear points at
unit spacing the code assigns point `i` the parameter `(N-1-i)/(N-1)` —
`[1, 1/2, 0]`, not the `[0, 1/2, 1]` (`i/(N-1)`) the claim states — because
the trunk parameters accumulate from the *end* vertex, where the parent walk
starts.  On the reordered collinear points `bentPts` the trunk path is
`1, 2, 0`, whose Euclidean edge lengths sum to `3`, yet the code's
`sumOfDistances` is `5`: lines 863-868 sum `graph[i][i+1]` over the loop
counter (consecutively indexed points) instead of the trunk edges, so the
total trunk length the claim describes is not what the code computes. -/
theorem C1_mst_trunk_evaluation :
    (ComputePointParametersFromMinimumSpanningTree sqrtSmall (some linePts) []).1 = [1, 1/2, 0]
    ∧ (ComputePointParametersFromMinimumSpanningTree sqrtSmall (some linePts) []).1 ≠ [0, 1/2, 1]
    ∧ (ComputePointParametersFromMinimumSpanningTree sqrtSmall (some bentPts) []).1 = [1, 0, 3/5]
    ∧ mstPathIndices sqrtSmall bentPts = [1, 2, 0]
    ∧ mstSumOfDistances sqrtSmall bentPts = 5
    ∧ graphAt (mstGraph sqrtSmall bentPts) 1 2 + graphAt (mstGraph sqrtSmall bentPts) 2 0 = 3 := by
  have hline :
      (ComputePointParametersFromMinimumSpanningTree sqrtSmall (some linePts) []).1
        = [1, 1/2, 0] := by
    rw [ComputePointParametersFromMinimumSpanningTree]
    simp only [line_graph_eval, line_parent_eval, line_path_eval, line_sum_eval]
    norm_num [line_pathparams_eval, line_find0_eval, line_find1_eval, line_find2_eval,
      List.range_succ, List.getD, linePts]
  refine ⟨hline, by rw [hline]; norm_num, ?_, bent_path_eval, bent_sum_eval, ?_⟩
  · rw [ComputePointParametersFromMinimumSpanningTree]
    simp only [bent_graph_eval, bent_parent_eval, bent_path_eval, bent_sum_eval]
    norm_num [bent_pathparams_eval, bent_find0_eval, bent_find1_eval, bent_find2_eval,
      List.range_succ, List.getD, bentPts]
  · rw [bent_graph_eval]
    norm_num [graphAt, List.getD]

/-- C2: with `tubeRadius = 0` the tube construction is bypassed and the bare
line mesh — one polyline cell visiting every point in order — is the output:
in `GetTubePolyDataFromPoints` literally, and in the polynomial generator's
fit-and-sample stage (whose radius-0 branch in the source, lines 688-691,
names the undefined identifier `outputTube`; see the model note on
`GeneratePolynomialCurveModel`). -/
theorem C2_radius_zero_line_mesh :
    (∀ (tubeFilter : PolyData → ℚ → ℕ → PolyData) (pts : List Point3) (out : PolyData) (sides : ℕ),
      GetTubePolyDataFromPoints tubeFilter (some pts) out 0 sides = (buildLinePolyData pts, []))
    ∧ (∀ (solveLeastSquares : ℕ → List (List ℚ) → ℕ → List (List ℚ) → ℕ → List (List ℚ))
        (pts : List Point3) (segs : ℕ) (order : ℤ) (params : List ℚ),
      (polynomialFitAndSample solveLeastSquares pts segs order params).1
        = buildLinePolyData (polynomialFitAndSample solveLeastSquares pts segs order params).1.points)
    ∧ (∀ (tubeFilter : PolyData → ℚ → ℕ → PolyData) (sphereSource : ℚ → ℕ → Point3 → PolyData)
        (solveLeastSquares : ℕ → List (List ℚ) → ℕ → List (List ℚ) → ℕ → List (List ℚ))
        (pts : List Point3) (out : PolyData) (sides segs : ℕ) (tubeLoop : Bool) (order : ℤ),
      3 ≤ pts.length →
      GeneratePolynomialCurveModel tubeFilter sphereSource solveLeastSquares (some pts) out
          0 sides segs tubeLoop order none
        = polynomialFitAndSample solveLeastSquares pts segs order
            (ComputePointParametersFromIndices (some pts) []).1) := by
  refine ⟨?_, ?_, ?_⟩
  · intro tubeFilter pts out sides
    simp [GetTubePolyDataFromPoints]
  · intro solveLS pts segs order params
    simp [polynomialFitAndSample, buildLinePolyData, length_polynomialCurvePoints]
  · intro tf ss solveLS pts out sides segs tubeLoop order h
    have hf := cppfi_fresh pts (by omega)
    simp [GeneratePolynomialCurveModel, hf, show pts.length ≠ 0 by omega,
      show pts.length ≠ 1 by omega, show pts.length ≠ 2 by omega]

/-- C2 witness: the radius-0 equalities at concrete inputs. -/
theorem C2_radius_zero_line_mesh_witness :
    3 ≤ w3pts.length
    ∧ GetTubePolyDataFromPoints tubeFilterW (some w3pts) outW 0 8 = (buildLinePolyData w3pts, [])
    ∧ GeneratePolynomialCurveModel tubeFilterW sphereSourceW solveLeastSquaresW (some w3pts) outW
        0 8 5 false 3 none
      = polynomialFitAndSample solveLeastSquaresW w3pts 5 3
          (ComputePointParametersFromIndices (some w3pts) []).1 :=
  ⟨by decide,
   C2_radius_zero_line_mesh.1 tubeFilterW w3pts outW 8,
   C2_radius_zero_line_mesh.2.2 tubeFilterW sphereSourceW solveLeastSquaresW w3pts outW 8 5 false 3
     (by decide)⟩

/-- C3: with exactly 2 control points each of the cardinal, Kochanek and
polynomial generators produces output identical to the piecewise-linear
generator on the same input and configuration. -/
theorem C3_two_point_delegation (tubeFilter : PolyData → ℚ → ℕ → PolyData)
    (sphereSource : ℚ → ℕ → Point3 → PolyData)
    (cardinalSpline : Bool → List ℚ → ℚ → ℚ) (kochanekSpline : KochanekSplineSetup → ℚ → ℚ)
    (solveLeastSquares : ℕ → List (List ℚ) → ℕ → List (List ℚ) → ℕ → List (List ℚ))
    (cps : List Point3) (out : PolyData) (tubeRadius : ℚ)
    (tubeNumberOfSides tubeSegmentsBetweenControlPoints : ℕ) (tubeLoop : Bool)
    (kochanekBias kochanekContinuity kochanekTension : ℚ)
    (kochanekEndsCopyNearestDerivatives : Bool) (polynomialOrder : ℤ)
    (inputPointParameters : Option (List ℚ)) (h : cps.length = 2) :
    GenerateCardinalSplineCurveModel tubeFilter sphereSource cardinalSpline (some cps) out
        tubeRadius tubeNumberOfSides tubeSegmentsBetweenControlPoints tubeLoop
      = GeneratePiecewiseLinearCurveModel tubeFilter sphereSource (some cps) out
        tubeRadius tubeNumberOfSides tubeSegmentsBetweenControlPoints tubeLoop
    ∧ GenerateKochanekSplineCurveModel tubeFilter sphereSource kochanekSpline (some cps) out
        tubeRadius tubeNumberOfSides tubeSegmentsBetweenControlPoints tubeLoop
        kochanekBias kochanekContinuity kochanekTension kochanekEndsCopyNearestDerivatives
      = GeneratePiecewiseLinearCurveModel tubeFilter sphereSource (some cps) out
        tubeRadius tubeNumberOfSides tubeSegmentsBetweenControlPoints tubeLoop
    ∧ GeneratePolynomialCurveModel tubeFilter sphereSource solveLeastSquares (some cps) out
        tubeRadius tubeNumberOfSides tubeSegmentsBetweenControlPoints tubeLoop
        polynomialOrder inputPointParameters
      = GeneratePiecewiseLinearCurveModel tubeFilter sphereSource (some cps) out
        tubeRadius tubeNumberOfSides tubeSegmentsBetweenControlPoints tubeLoop := by
  refine ⟨?_, ?_, ?_⟩
  · simp [GenerateCardinalSplineCurveModel, h]
  · simp [GenerateKochanekSplineCurveModel, h]
  · simp [GeneratePolynomialCurveModel, h]

/-- C3 witness: the theorem applied to two concrete points and concrete
collaborators. -/
theorem C3_two_point_delegation_witness :
    w2pts.length = 2
    ∧ GeneratePolynomialCurveModel tubeFilterW sphereSourceW solveLeastSquaresW (some w2pts) outW
        1 8 5 false 3 none
      = GeneratePiecewiseLinearCurveModel tubeFilterW sphereSourceW (some w2pts) outW 1 8 5 false :=
  ⟨by decide,
   (C3_two_point_delegation tubeFilterW sphereSourceW cardinalSplineW kochanekSplineW
     solveLeastSquaresW w2pts outW 1 8 5 false 0 0 0 false 3 none (by decide)).2.2⟩

/-- C4 counterexample: a requested polynomial order of `-1` is *not* clamped
into `[0, 6]`: the clamp (lines 574-581) fires only above 6 and emits no
warning here, and the coefficient count the generator then uses
(lines 583-593) is `0` — an effective order of `-1`, outside `[0, 6]`. -/
theorem C4_negative_order_counterexample :
    clampPolynomialOrder (-1) = (-1, [])
    ∧ polynomialCoefficientCount (clampPolynomialOrder (-1)).1 [0, 1/2, 1] = 0
    ∧ polynomialCoefficientCount (clampPolynomialOrder (-1)).1 [0, 1/2, 1] - 1 < 0 := by
  have hclamp : clampPolynomialOrder (-1) = (-1, []) := by
    simp [clampPolynomialOrder]
  have hcount : polynomialCoefficientCount (clampPolynomialOrder (-1)).1 [0, 1/2, 1] = 0 := by
    rw [hclamp]
    simp only [polynomialCoefficientCount]
    rw [if_neg (by omega)]
    norm_num
  exact ⟨hclamp, hcount, by rw [hcount]; norm_num⟩

theorem fitAndSample_clamp
    (solveLeastSquares : ℕ → List (List ℚ) → ℕ → List (List ℚ) → ℕ → List (List ℚ))
    (pts : List Point3) (segs : ℕ) (params : List ℚ) (order : ℤ) (h : order > 6) :
    (polynomialFitAndSample solveLeastSquares pts segs order params).1
      = (polynomialFitAndSample solveLeastSquares pts segs 6 params).1
    ∧ (polynomialFitAndSample solveLeastSquares pts segs order params).2
      = [Warning.unsupportedOrder] := by
  constructor <;>
    simp [polynomialFitAndSample, clampPolynomialOrder, h, show ¬(6 : ℤ) > 6 by omega]

/-- C4 amended: requested orders above 6 are clamped to 6 with an observable
warning and the run proceeds, producing the same mesh as a request of 6; for
every requested order that is at least 0 the effective coefficient count lies
in `[1, 7]` (effective order in `[0, 6]`).  Negative requested orders are not
clamped up (see the counterexample). -/
theorem C4_order_clamp_amended :
    (∀ (tubeFilter : PolyData → ℚ → ℕ → PolyData) (sphereSource : ℚ → ℕ → Point3 → PolyData)
       (solveLeastSquares : ℕ → List (List ℚ) → ℕ → List (List ℚ) → ℕ → List (List ℚ))
       (pts : List Point3) (out : PolyData) (tubeRadius : ℚ) (sides segs : ℕ) (tubeLoop : Bool)
       (inputPointParameters : Option (List ℚ)) (order : ℤ),
      3 ≤ pts.length → order > 6 →
      (inputPointParameters = none
        ∨ ∃ pp, inputPointParameters = some pp ∧ pp.length = pts.length) →
      (GeneratePolynomialCurveModel tubeFilter sphereSource solveLeastSquares (some pts) out
          tubeRadius sides segs tubeLoop order inputPointParameters).1
        = (GeneratePolynomialCurveModel tubeFilter sphereSource solveLeastSquares (some pts) out
          tubeRadius sides segs tubeLoop 6 inputPointParameters).1
      ∧ Warning.unsupportedOrder
          ∈ (GeneratePolynomialCurveModel tubeFilter sphereSource solveLeastSquares (some pts) out
          tubeRadius sides segs tubeLoop order inputPointParameters).2)
    ∧ (∀ (order : ℤ) (params : List ℚ), 0 ≤ order → params ≠ [] →
      1 ≤ polynomialCoefficientCount (clampPolynomialOrder order).1 params
      ∧ polynomialCoefficientCount (clampPolynomialOrder order).1 params ≤ 7) := by
  constructor
  · intro tf ss ls pts out r sides segs loop params order h horder hparams
    have hfit := fitAndSample_clamp ls pts segs
    rcases hparams with hnone | ⟨pp, hpp, hlen⟩
    · subst hnone
      constructor <;>
        by_cases hr : r > 0 <;>
          simp [GeneratePolynomialCurveModel, show pts.length ≠ 0 by omega,
            show pts.length ≠ 1 by omega, show pts.length ≠ 2 by omega, hr,
            (hfit _ order horder).1, (hfit _ order horder).2]
    · subst hpp
      constructor <;>
        by_cases hr : r > 0 <;>
          simp [GeneratePolynomialCurveModel, show pts.length ≠ 0 by omega,
            show pts.length ≠ 1 by omega, show pts.length ≠ 2 by omega, hr, hlen,
            (hfit _ order horder).1, (hfit _ order horder).2]
  · intro order params h0 hne
    have hd : 1 ≤ params.dedup.length :=
      List.length_pos.mpr (by simpa [List.dedup_eq_nil] using hne)
    unfold clampPolynomialOrder polynomialCoefficientCount
    by_cases hc : order > 6 <;> simp only [hc, if_pos, if_neg, ite_true, ite_false] <;>
      split_ifs <;> omega

/-- C4 witness: a request of order 10 on three concrete points is downgraded
to 6 with a warning, and a request of order 10 yields a coefficient count in
`[1, 7]`. -/
theorem C4_order_clamp_amended_witness :
    3 ≤ w3pts.length ∧ (10 : ℤ) > 6
    ∧ (GeneratePolynomialCurveModel tubeFilterW sphereSourceW solveLeastSquaresW (some w3pts) outW
        1 8 5 false 10 none).1
      = (GeneratePolynomialCurveModel tubeFilterW sphereSourceW solveLeastSquaresW (some w3pts) outW
        1 8 5 false 6 none).1
    ∧ Warning.unsupportedOrder
        ∈ (GeneratePolynomialCurveModel tubeFilterW sphereSourceW solveLeastSquaresW (some w3pts) outW
        1 8 5 false 10 none).2
    ∧ 1 ≤ polynomialCoefficientCount (clampPolynomialOrder 10).1 [0, 1/2, 1] :=
  ⟨by decide, by decide,
   (C4_order_clamp_amended.1 tubeFilterW sphereSourceW solveLeastSquaresW w3pts outW 1 8 5 false
     none 10 (by decide) (by decide) (Or.inl rfl)).1,
   (C4_order_clamp_amended.1 tubeFilterW sphereSourceW solveLeastSquaresW w3pts outW 1 8 5 false
     none 10 (by decide) (by decide) (Or.inl rfl)).2,
   (C4_order_clamp_amended.2 10 [0, 1/2, 1] (by decide) (by decide)).1⟩

/-- C6: in every looped run with at least two control points the dense output
sequence is closed by `CloseLoop`: its first point is the midpoint of points
0 and 1 of the filled buffer, and its last point equals its first.  This
covers the piecewise-linear generator and, through `splineCurvePoints`
quantified over the per-axis evaluators, the cardinal and Kochanek
generators. -/
theorem C6_loop_seam_closure (evalX evalY evalZ : ℚ → ℚ) (cps : List Point3) (segs : ℕ)
    (h : 2 ≤ cps.length) :
    ((linearCurvePoints cps segs true).getD 0 origin
        = closeLoopMidpoint (linearCurvePointsRaw cps segs true)
      ∧ (linearCurvePoints cps segs true).getD ((linearCurvePoints cps segs true).length - 1) origin
        = (linearCurvePoints cps segs true).getD 0 origin)
    ∧ ((splineCurvePoints evalX evalY evalZ cps segs true).getD 0 origin
        = closeLoopMidpoint (splineCurvePointsRaw evalX evalY evalZ cps segs true)
      ∧ (splineCurvePoints evalX evalY evalZ cps segs true).getD
          ((splineCurvePoints evalX evalY evalZ cps segs true).length - 1) origin
        = (splineCurvePoints evalX evalY evalZ cps segs true).getD 0 origin) := by
  constructor
  · have hraw : 2 ≤ (linearCurvePointsRaw cps segs true).length := by
      rw [length_linearCurvePointsRaw, length_AllocateCurvePoints]
      simp
    have hd : linearCurvePoints cps segs true = CloseLoop (linearCurvePointsRaw cps segs true) := by
      simp [linearCurvePoints]
    obtain ⟨ha, hb, _⟩ := closeLoop_getD (linearCurvePointsRaw cps segs true) hraw
    rw [hd]
    exact ⟨ha, by rw [hb, ha]⟩
  · have hraw : 2 ≤ (splineCurvePointsRaw evalX evalY evalZ cps segs true).length := by
      rw [length_splineCurvePointsRaw, length_AllocateCurvePoints]
      simp
    have hd : splineCurvePoints evalX evalY evalZ cps segs true
        = CloseLoop (splineCurvePointsRaw evalX evalY evalZ cps segs true) := by
      simp [splineCurvePoints]
    obtain ⟨ha, hb, _⟩ := closeLoop_getD (splineCurvePointsRaw evalX evalY evalZ cps segs true) hraw
    rw [hd]
    exact ⟨ha, by rw [hb, ha]⟩

/-- C6 witness: the seam equality on two concrete control points. -/
theorem C6_loop_seam_closure_witness :
    2 ≤ w2pts.length
    ∧ (linearCurvePoints w2pts 1 true).getD ((linearCurvePoints w2pts 1 true).length - 1) origin
      = (linearCurvePoints w2pts 1 true).getD 0 origin :=
  ⟨by decide, (C6_loop_seam_closure sqrtW sqrtW sqrtW w2pts 1 (by decide)).1.2⟩

/-- C8: with at least 3 points the polynomial generator's output does not
depend on the `tubeLoop` flag (the loop is never closed), and the dense
sample sequence it builds always has `(N-1) * segmentsBetweenControlPoints
+ 1` points. -/
theorem C8_polynomial_loop_independence (tubeFilter : PolyData → ℚ → ℕ → PolyData)
    (sphereSource : ℚ → ℕ → Point3 → PolyData)
    (solveLeastSquares : ℕ → List (List ℚ) → ℕ → List (List ℚ) → ℕ → List (List ℚ))
    (pts : List Point3) (out : PolyData) (tubeRadius : ℚ) (sides segs : ℕ)
    (polynomialOrder : ℤ) (inputPointParameters : Option (List ℚ))
    (h : 3 ≤ pts.length) :
    GeneratePolynomialCurveModel tubeFilter sphereSource solveLeastSquares (some pts) out
        tubeRadius sides segs true polynomialOrder inputPointParameters
      = GeneratePolynomialCurveModel tubeFilter sphereSource solveLeastSquares (some pts) out
        tubeRadius sides segs false polynomialOrder inputPointParameters
    ∧ ∀ (coefficientRows : List (List ℚ)) (numCoefficients : ℕ),
        (polynomialCurvePoints coefficientRows numCoefficients ((pts.length - 1) * segs + 1)).length
          = (pts.length - 1) * segs + 1 := by
  constructor
  · simp [GeneratePolynomialCurveModel, show pts.length ≠ 0 by omega,
      show pts.length ≠ 1 by omega, show pts.length ≠ 2 by omega]
  · intro coefficientRows numCoefficients
    exact length_polynomialCurvePoints coefficientRows numCoefficients _

/-- C8 witness: the loop-flag independence at three concrete points. -/
theorem C8_polynomial_loop_independence_witness :
    3 ≤ w3pts.length
    ∧ GeneratePolynomialCurveModel tubeFilterW sphereSourceW solveLeastSquaresW (some w3pts) outW
        1 8 5 true 3 none
      = GeneratePolynomialCurveModel tubeFilterW sphereSourceW solveLeastSquaresW (some w3pts) outW
        1 8 5 false 3 none :=
  ⟨by decide,
   (C8_polynomial_loop_independence tubeFilterW sphereSourceW solveLeastSquaresW w3pts outW 1 8 5
     3 none (by decide)).1⟩

end MarkupsToModel
